import Mathlib

/-!
Shallow embedding of the PlusePoll vote subsystem.

The definitions below are translated from the repository's source:
- `src/controllers/voteController.js` (`addVote`, `updateVote`, `removeVote`)
- `src/controllers/pollController.js` (`getPollStats` tally computation)
- `src/services/socketService.js` (`initializeSocket` auth middleware,
  `broadcastVoteUpdate`)

The relational store (Prisma/PostgreSQL) is modelled as explicit lists of
rows; `findUnique`/`findFirst` become `List.find?` over those lists. Record
ids (cuids in the source) are modelled as natural numbers. HTTP responses
are modelled as a status code plus message, exactly as passed to
`errorResponse`/`successResponse` in `src/utils/response.js`. The order of
store writes and broadcast calls inside a handler is recorded as an explicit
effect trace.
-/

namespace PlusePoll

/-- A row of the `Poll` table (fields used by the vote subsystem). -/
structure Poll where
  id : Nat
  question : String
  isPublished : Bool
deriving Repr, DecidableEq

/-- A row of the `PollOption` table. -/
structure PollOption where
  id : Nat
  pollId : Nat
  text : String
deriving Repr, DecidableEq

/-- A row of the `Vote` table. `pollId` is denormalized alongside
`pollOptionId`, exactly as in the Prisma schema. -/
structure Vote where
  userId : Nat
  pollId : Nat
  pollOptionId : Nat
deriving Repr, DecidableEq

/-- A row of the `User` table (fields selected by the socket middleware). -/
structure User where
  id : Nat
  name : String
  email : String
deriving Repr, DecidableEq

/-- The relational store: the tables read and written by the vote
subsystem. -/
structure DB where
  polls : List Poll
  options : List PollOption
  votes : List Vote
deriving Repr, DecidableEq

/-- `prisma.poll.findUnique({ where: { id: pollId } })`. -/
def findPoll (db : DB) (pollId : Nat) : Option Poll :=
  db.polls.find? (fun p => p.id == pollId)

/-- `prisma.pollOption.findFirst({ where: { id: pollOptionId, pollId } })`:
the option must both exist and belong to the given poll. -/
def findOptionInPoll (db : DB) (pollOptionId pollId : Nat) : Option PollOption :=
  db.options.find? (fun o => o.id == pollOptionId && o.pollId == pollId)

/-- `prisma.pollOption.findUnique({ where: { id: pollOptionId } })`. -/
def findOption (db : DB) (pollOptionId : Nat) : Option PollOption :=
  db.options.find? (fun o => o.id == pollOptionId)

/-- `prisma.vote.findUnique({ where: { userId_pollOptionId: ... } })`:
lookup by the unique `(userId, pollOptionId)` key. -/
def findVote (db : DB) (userId pollOptionId : Nat) : Option Vote :=
  db.votes.find? (fun v => v.userId == userId && v.pollOptionId == pollOptionId)

/-- `prisma.user.findUnique({ where: { id } })`. -/
def findUser (users : List User) (userId : Nat) : Option User :=
  users.find? (fun u => u.id == userId)

/-- An HTTP response as produced by `successResponse`/`errorResponse` in
`src/utils/response.js`: the status code and the message string. -/
structure Resp where
  status : Nat
  message : String
deriving Repr, DecidableEq

/-- One observable side effect of a vote handler, in the order the handler
awaits it: a store write (`prisma.vote.create/update/delete`) or a call to
`broadcastVoteUpdate`. -/
inductive Effect where
  | voteCreate (v : Vote)
  | voteUpdate (userId pollOptionId : Nat)
  | voteDelete (userId pollOptionId : Nat)
  | broadcast (pollId : Nat)
deriving Repr, DecidableEq

/-- Result of running one vote handler: the store afterwards, the HTTP
response, and the ordered trace of effects. -/
structure HandlerOut where
  db : DB
  resp : Resp
  effects : List Effect
deriving Repr, DecidableEq

/-- `addVote` from `src/controllers/voteController.js` (cast). The body-field
presence check (`if (!pollId || !pollOptionId)`) is elided because ids are
always supplied in this model. Checks run in source order: poll existence,
`isPublished`, option-belongs-to-poll, duplicate `(userId, pollOptionId)`
vote; then `prisma.vote.create` followed by `broadcastVoteUpdate(pollId)`. -/
def addVote (db : DB) (userId pollId pollOptionId : Nat) : HandlerOut :=
  match findPoll db pollId with
  | none => ⟨db, ⟨404, "Poll not found"⟩, []⟩
  | some poll =>
    if !poll.isPublished then
      ⟨db, ⟨403, "Cannot vote on unpublished poll"⟩, []⟩
    else
      match findOptionInPoll db pollOptionId pollId with
      | none => ⟨db, ⟨400, "Invalid poll option for this poll"⟩, []⟩
      | some _ =>
        match findVote db userId pollOptionId with
        | some _ => ⟨db, ⟨400, "You have already voted for this option"⟩, []⟩
        | none =>
          let v : Vote := ⟨userId, pollId, pollOptionId⟩
          ⟨{ db with votes := db.votes ++ [v] },
           ⟨201, "Vote added successfully"⟩,
           [Effect.voteCreate v, Effect.broadcast pollId]⟩

/-- `updateVote` from `src/controllers/voteController.js` (change). Looks the
vote up by the unique key `(userId, pollOptionId)` — the *target* option —
then checks the option belongs to `pollId`, then runs `prisma.vote.update`
setting `pollOptionId` on that same row, followed by
`broadcastVoteUpdate(pollId)`. No poll lookup and no publish check occur. -/
def updateVote (db : DB) (userId pollId pollOptionId : Nat) : HandlerOut :=
  match findVote db userId pollOptionId with
  | none => ⟨db, ⟨404, "No vote found to update"⟩, []⟩
  | some _ =>
    match findOptionInPoll db pollOptionId pollId with
    | none => ⟨db, ⟨400, "Invalid poll option for this poll"⟩, []⟩
    | some _ =>
      let votes' := db.votes.map (fun v =>
        if v.userId == userId && v.pollOptionId == pollOptionId then
          { v with pollOptionId := pollOptionId }
        else v)
      ⟨{ db with votes := votes' },
       ⟨200, "Vote updated successfully"⟩,
       [Effect.voteUpdate userId pollOptionId, Effect.broadcast pollId]⟩

/-- `removeVote` from `src/controllers/voteController.js` (retract). Checks
the vote exists, looks up the option to learn its `pollId` for the later
broadcast, runs `prisma.vote.delete`, and broadcasts only `if (poll)` — when
the option lookup succeeded. -/
def removeVote (db : DB) (userId pollOptionId : Nat) : HandlerOut :=
  match findVote db userId pollOptionId with
  | none => ⟨db, ⟨404, "No vote found to remove"⟩, []⟩
  | some _ =>
    let pollOfOption := (findOption db pollOptionId).map (fun o => o.pollId)
    let votes' := db.votes.filter (fun v =>
      !(v.userId == userId && v.pollOptionId == pollOptionId))
    match pollOfOption with
    | some pid =>
      ⟨{ db with votes := votes' },
       ⟨200, "Vote removed successfully"⟩,
       [Effect.voteDelete userId pollOptionId, Effect.broadcast pid]⟩
    | none =>
      ⟨{ db with votes := votes' },
       ⟨200, "Vote removed successfully"⟩,
       [Effect.voteDelete userId pollOptionId]⟩

/-- Number of votes referencing an option: Prisma's
`_count: { select: { votes: true } }` on a `PollOption`. -/
def optionVoteCount (db : DB) (pollOptionId : Nat) : Nat :=
  (db.votes.filter (fun v => v.pollOptionId == pollOptionId)).length

/-- Number of votes whose denormalized `pollId` is the given poll: Prisma's
`_count: { select: { votes: true } }` on a `Poll`. -/
def pollVoteCount (db : DB) (pollId : Nat) : Nat :=
  (db.votes.filter (fun v => v.pollId == pollId)).length

/-- Round-half-up of the rational `num / den` (`den > 0`), i.e.
`⌊num/den + 1/2⌋ = (2*num + den) / (2*den)` in integer arithmetic. This is
the exact-arithmetic reading of JavaScript `Math.round(num / den)` for
non-negative arguments. -/
def jsRound (num den : Nat) : Nat :=
  (2 * num + den) / (2 * den)

/-- `totalVotes > 0 ? Math.round((voteCount / totalVotes) * 100) : 0` from
`getPollStats` and `broadcastVoteUpdate`. -/
def percentage (voteCount totalVotes : Nat) : Nat :=
  if totalVotes > 0 then jsRound (voteCount * 100) totalVotes else 0

/-- One entry of the per-option stats array built by `getPollStats` /
`broadcastVoteUpdate`. -/
structure OptionStat where
  id : Nat
  text : String
  voteCount : Nat
  pct : Nat
deriving Repr, DecidableEq

/-- The tally payload: `{pollId, question, totalVotes, options}`. -/
structure Tally where
  pollId : Nat
  question : String
  totalVotes : Nat
  options : List OptionStat
deriving Repr, DecidableEq

/-- The options of a poll, as produced by the Prisma `include: { options }`
relation on the `Poll` row. -/
def optionsOf (db : DB) (pollId : Nat) : List PollOption :=
  db.options.filter (fun o => o.pollId == pollId)

/-- The aggregate query shared by `getPollStats`
(`src/controllers/pollController.js`) and `broadcastVoteUpdate`
(`src/services/socketService.js`): per-option vote counts and percentages
plus the poll-level total. `none` when the poll is absent (404 path). -/
def computeTally (db : DB) (pollId : Nat) : Option Tally :=
  (findPoll db pollId).map (fun poll =>
    let totalVotes := pollVoteCount db pollId
    { pollId := poll.id
      question := poll.question
      totalVotes := totalVotes
      options := (optionsOf db pollId).map (fun o =>
        { id := o.id
          text := o.text
          voteCount := optionVoteCount db o.id
          pct := percentage (optionVoteCount db o.id) totalVotes }) })

/-- Is this effect a store write (as opposed to a broadcast)? -/
def isWriteEffect : Effect → Bool
  | Effect.broadcast _ => false
  | _ => true

/-- `broadcastsPreceded seen es` holds when every `broadcast` in `es` is
preceded by at least one store write (`seen` records whether a write has
already happened). Encodes "the dispatcher is invoked only after the vote
write, never before" over an effect trace. -/
def broadcastsPreceded (seen : Bool) : List Effect → Bool
  | [] => true
  | Effect.broadcast _ :: es => seen && broadcastsPreceded seen es
  | _ :: es => broadcastsPreceded true es

/-- The socket.io room registry: for each poll's room `poll-${pollId}`, the
list of member connection ids (`io.sockets.adapter.rooms`). -/
abbrev Rooms : Type := List (Nat × List Nat)

/-- Members of the room `poll-${pollId}`; the empty list when the room does
not exist (`room?.size || 0` in the source). -/
def membersOf (rooms : Rooms) (pollId : Nat) : List Nat :=
  match (List.find? (fun r => r.1 == pollId) rooms) with
  | some r => r.2
  | none => []

/-- Modelled from the spec: the transport-level room emit
(`io.to(room).emit`, provided by the socket.io library, not by this
repository) attempts delivery to every member of the room independently —
a per-connection delivery failure does not stop the loop and is not
reported back to the emitting caller. `deliver c` says whether delivery to
connection `c` succeeds; the result records every attempted delivery. -/
def emitToRoom (members : List Nat) (deliver : Nat → Bool) : List (Nat × Bool) :=
  members.map (fun c => (c, deliver c))

/-- Observable outcome of `broadcastVoteUpdate`: the deliveries attempted
(connection id, delivered?) and whether the call raised an error to its
caller. -/
structure BroadcastOut where
  deliveries : List (Nat × Bool)
  threw : Bool
deriving Repr, DecidableEq

/-- `broadcastVoteUpdate` from `src/services/socketService.js`. Recomputes
the tally and emits it to the poll's room. The whole body runs inside
`try { ... } catch { console.error(...) }`, so the function never raises to
its caller (`threw := false` on every path); a missing poll is logged and
ignored; an empty or absent room emits to nobody. -/
def broadcastVoteUpdate (db : DB) (rooms : Rooms) (pollId : Nat)
    (deliver : Nat → Bool) : BroadcastOut :=
  match computeTally db pollId with
  | none => ⟨[], false⟩
  | some _ => ⟨emitToRoom (membersOf rooms pollId) deliver, false⟩

/-- The connection handshake, as read by the socket auth middleware:
`socket.handshake.auth.token` and
`socket.handshake.headers.authorization`. `none` models a JavaScript
`undefined` field. -/
structure Handshake where
  authToken : Option String
  authHeader : Option String
deriving Repr, DecidableEq

/-- JavaScript truthiness of an optional string: `undefined` and `""` are
falsy. -/
def jsTruthy : Option String → Bool
  | none => false
  | some s => !(s == "")

/-- Try to strip `pat` from the front of a character list, returning the
remainder on success. -/
def stripFront : List Char → List Char → Option (List Char)
  | [], rest => some rest
  | _ :: _, [] => none
  | p :: ps, c :: cs => if c = p then stripFront ps cs else none

/-- Remove the first (leftmost) occurrence of the non-empty pattern from a
character list; the list is unchanged when the pattern never occurs. -/
def removeFirstOcc (pat : List Char) : List Char → List Char
  | [] => []
  | c :: cs =>
    match stripFront pat (c :: cs) with
    | some rest => rest
    | none => c :: removeFirstOcc pat cs

/-- JavaScript `String.prototype.replace` with a string pattern and an empty
replacement: removes only the first occurrence of `pat`. -/
def replaceFirst (s pat : String) : String :=
  String.mk (removeFirstOcc pat.data s.data)

/-- Token extraction from the handshake:
`socket.handshake.auth.token || socket.handshake.headers.authorization?.replace('Bearer ', '')`.
When `auth.token` is falsy, falls back to the header with the first
`"Bearer "` removed; `none` models the whole expression being
`undefined`. -/
def extractToken (hs : Handshake) : Option String :=
  if jsTruthy hs.authToken then hs.authToken
  else hs.authHeader.map (fun h => replaceFirst h "Bearer ")

/-- Result of the socket auth middleware (`io.use` in `initializeSocket`):
either `next(new Error(msg))`, which rejects the connection, or acceptance
with the resolved user. -/
inductive AuthResult where
  | rejected (msg : String)
  | accepted (user : User)
deriving Repr, DecidableEq

/-- The auth middleware installed by `initializeSocket` in
`src/services/socketService.js`. `verify` is the external
`verifyToken`/`jwt.verify` collaborator (`src/services/jwtService.js`
delegates to the `jsonwebtoken` library): `none` models it throwing on an
invalid or expired token, `some uid` models a decoded payload with
`userId = uid`. Checks run in source order: token presence (`if (!token)`),
token verification (a throw lands in the `catch`), then the user lookup. -/
def socketAuth (users : List User) (verify : String → Option Nat)
    (hs : Handshake) : AuthResult :=
  match extractToken hs with
  | none => AuthResult.rejected "Authentication error: No token provided"
  | some tok =>
    if tok == "" then AuthResult.rejected "Authentication error: No token provided"
    else
      match verify tok with
      | none => AuthResult.rejected "Authentication error: Invalid token"
      | some uid =>
        match findUser users uid with
        | none => AuthResult.rejected "Authentication error: User not found"
        | some u => AuthResult.accepted u

/-- A connection that passed the gatekeeper: the middleware attaches
`socket.userId = user.id` and `socket.user = user` before `next()`. Room
operations (`join-poll` / `leave-poll` handlers) are only registered on
connections that reached the `connection` event, i.e. on values of this
type — a rejected handshake never produces one. -/
structure ConnectedSocket where
  userId : Nat
  user : User
deriving Repr, DecidableEq

/-- Connection establishment: the middleware either rejects (the connection
is closed with the error, before any room operations) or yields a connected
socket carrying the resolved principal. -/
def establishConnection (users : List User) (verify : String → Option Nat)
    (hs : Handshake) : Except String ConnectedSocket :=
  match socketAuth users verify hs with
  | AuthResult.rejected m => Except.error m
  | AuthResult.accepted u => Except.ok ⟨u.id, u⟩

/-- At most one `Vote` row per `(userId, pollOptionId)` pair: the store's
`@@unique([userId, pollOptionId])` constraint, and the invariant of claim
C1. -/
def UniqueVotes (votes : List Vote) : Prop :=
  votes.Pairwise (fun v w => ¬(v.userId = w.userId ∧ v.pollOptionId = w.pollOptionId))

/-- The §8 scenario database: poll 1 ("Q", published) with options A (id 1)
and B (id 2) and no votes; users U1 = 10 and U2 = 20 cast below. -/
def scenarioDB : DB :=
  ⟨[⟨1, "Q", true⟩], [⟨1, 1, "A"⟩, ⟨2, 1, "B"⟩], []⟩

/-- Step 1: U1 casts for A. -/
def step1 : HandlerOut := addVote scenarioDB 10 1 1

/-- Step 2: U2 casts for B. -/
def step2 : HandlerOut := addVote step1.db 20 1 2

/-- Step 3: U1 calls change with target option B. -/
def step3 : HandlerOut := updateVote step2.db 10 1 2

/-- Counterexample store for C3: poll 1 exists but is unpublished, option 1
belongs to it, and user 10 already holds a vote for option 1. -/
def unpublishedDB : DB :=
  ⟨[⟨1, "Q", false⟩], [⟨1, 1, "A"⟩, ⟨2, 1, "B"⟩], [⟨10, 1, 1⟩]⟩

/-- Counterexample store for C4: poll 1 exists and is published, but there
are no options at all, so option 5 does not exist anywhere. -/
def noOptionDB : DB :=
  ⟨[⟨1, "Q", true⟩], [], []⟩

/-- Counterexample store for C5: poll 1 with options 1 and 2; option 1 has
1 vote and option 2 has 7 votes (8 voters, one vote each), so the exact
percentages are 12.5 and 87.5, both of which round half-up. -/
def eighthsDB : DB :=
  ⟨[⟨1, "Q", true⟩], [⟨1, 1, "A"⟩, ⟨2, 1, "B"⟩],
   [⟨11, 1, 1⟩, ⟨21, 1, 2⟩, ⟨22, 1, 2⟩, ⟨23, 1, 2⟩, ⟨24, 1, 2⟩,
    ⟨25, 1, 2⟩, ⟨26, 1, 2⟩, ⟨27, 1, 2⟩]⟩

/-- A small store shared by several witnesses: poll 1 ("Q", published) with
options 1 and 2, and one existing vote by user 10 for option 1. -/
def witnessDB : DB :=
  ⟨[⟨1, "Q", true⟩], [⟨1, 1, "A"⟩, ⟨2, 1, "B"⟩], [⟨10, 1, 1⟩]⟩

/-- A one-user table for the gatekeeper witness. -/
def demoUsers : List User := [⟨5, "Ada", "ada@example.com"⟩]

/-- A toy verifier for the gatekeeper witness: accepts exactly the token
"tok5", decoding it to user id 5. -/
def demoVerify : String → Option Nat :=
  fun tok => if tok == "tok5" then some 5 else none

/-! ## Helper lemmas -/

theorem find?_append_of_none {α : Type} {p : α → Bool} {l₁ l₂ : List α}
    (h : l₁.find? p = none) : (l₁ ++ l₂).find? p = l₂.find? p := by
  rw [List.find?_append, h, Option.none_or]

theorem findPoll_votes_irrel (db : DB) (p : Nat) (vs : List Vote) :
    findPoll ⟨db.polls, db.options, vs⟩ p = findPoll db p := rfl

theorem findOptionInPoll_votes_irrel (db : DB) (o p : Nat) (vs : List Vote) :
    findOptionInPoll ⟨db.polls, db.options, vs⟩ o p = findOptionInPoll db o p := rfl

theorem addVote_poll_none (db : DB) (u p o : Nat) (h : findPoll db p = none) :
    addVote db u p o = ⟨db, ⟨404, "Poll not found"⟩, []⟩ := by
  simp [addVote, h]

theorem addVote_unpublished (db : DB) (u p o : Nat) (poll : Poll)
    (hp : findPoll db p = some poll) (hpub : poll.isPublished = false) :
    addVote db u p o = ⟨db, ⟨403, "Cannot vote on unpublished poll"⟩, []⟩ := by
  simp [addVote, hp, hpub]

theorem addVote_bad_option (db : DB) (u p o : Nat) (poll : Poll)
    (hp : findPoll db p = some poll) (hpub : poll.isPublished = true)
    (ho : findOptionInPoll db o p = none) :
    addVote db u p o = ⟨db, ⟨400, "Invalid poll option for this poll"⟩, []⟩ := by
  simp [addVote, hp, hpub, ho]

theorem addVote_duplicate (db : DB) (u p o : Nat) (poll : Poll) (opt : PollOption)
    (v : Vote) (hp : findPoll db p = some poll) (hpub : poll.isPublished = true)
    (ho : findOptionInPoll db o p = some opt) (hv : findVote db u o = some v) :
    addVote db u p o = ⟨db, ⟨400, "You have already voted for this option"⟩, []⟩ := by
  simp [addVote, hp, hpub, ho, hv]

theorem addVote_created (db : DB) (u p o : Nat) (poll : Poll) (opt : PollOption)
    (hp : findPoll db p = some poll) (hpub : poll.isPublished = true)
    (ho : findOptionInPoll db o p = some opt) (hv : findVote db u o = none) :
    addVote db u p o =
      ⟨⟨db.polls, db.options, db.votes ++ [⟨u, p, o⟩]⟩,
       ⟨201, "Vote added successfully"⟩,
       [Effect.voteCreate ⟨u, p, o⟩, Effect.broadcast p]⟩ := by
  simp [addVote, hp, hpub, ho, hv]

theorem addVote_201_inv (db : DB) (u p o : Nat)
    (h : (addVote db u p o).resp.status = 201) :
    ∃ poll opt, findPoll db p = some poll ∧ poll.isPublished = true ∧
      findOptionInPoll db o p = some opt ∧ findVote db u o = none ∧
      addVote db u p o =
        ⟨⟨db.polls, db.options, db.votes ++ [⟨u, p, o⟩]⟩,
         ⟨201, "Vote added successfully"⟩,
         [Effect.voteCreate ⟨u, p, o⟩, Effect.broadcast p]⟩ := by
  cases hp : findPoll db p with
  | none => rw [addVote_poll_none db u p o hp] at h; simp at h
  | some poll =>
    cases hpub : poll.isPublished with
    | false => rw [addVote_unpublished db u p o poll hp hpub] at h; simp at h
    | true =>
      cases ho : findOptionInPoll db o p with
      | none => rw [addVote_bad_option db u p o poll hp hpub ho] at h; simp at h
      | some opt =>
        cases hv : findVote db u o with
        | some v => rw [addVote_duplicate db u p o poll opt v hp hpub ho hv] at h; simp at h
        | none =>
          exact ⟨poll, opt, rfl, hpub, rfl, rfl, addVote_created db u p o poll opt hp hpub ho hv⟩

theorem vote_update_fix (u o : Nat) (w : Vote) :
    (if w.userId == u && w.pollOptionId == o then { w with pollOptionId := o } else w) = w := by
  by_cases h : (w.userId == u && w.pollOptionId == o) = true
  · have h2 : w.pollOptionId = o := by
      have h3 := (Bool.and_eq_true _ _).mp h
      simpa using h3.2
    cases w
    simp_all
  · simp [h]

theorem updateVote_db_eq (db : DB) (u p o : Nat) : (updateVote db u p o).db = db := by
  unfold updateVote
  cases hv : findVote db u o with
  | none => rfl
  | some v =>
    cases ho : findOptionInPoll db o p with
    | none => rfl
    | some opt =>
      show DB.mk db.polls db.options _ = db
      rw [List.map_congr_left (fun w _ => vote_update_fix u o w)]
      simp

theorem updateVote_vote_none (db : DB) (u p o : Nat) (hv : findVote db u o = none) :
    updateVote db u p o = ⟨db, ⟨404, "No vote found to update"⟩, []⟩ := by
  simp [updateVote, hv]

theorem updateVote_bad_option (db : DB) (u p o : Nat) (v : Vote)
    (hv : findVote db u o = some v) (ho : findOptionInPoll db o p = none) :
    updateVote db u p o = ⟨db, ⟨400, "Invalid poll option for this poll"⟩, []⟩ := by
  simp [updateVote, hv, ho]

theorem updateVote_updated (db : DB) (u p o : Nat) (v : Vote) (opt : PollOption)
    (hv : findVote db u o = some v) (ho : findOptionInPoll db o p = some opt) :
    (updateVote db u p o).resp = ⟨200, "Vote updated successfully"⟩ ∧
    (updateVote db u p o).effects = [Effect.voteUpdate u o, Effect.broadcast p] := by
  simp [updateVote, hv, ho]

theorem updateVote_200_inv (db : DB) (u p o : Nat)
    (h : (updateVote db u p o).resp.status = 200) :
    ∃ v opt, findVote db u o = some v ∧ findOptionInPoll db o p = some opt ∧
      (updateVote db u p o).resp = ⟨200, "Vote updated successfully"⟩ ∧
      (updateVote db u p o).effects = [Effect.voteUpdate u o, Effect.broadcast p] := by
  cases hv : findVote db u o with
  | none => rw [updateVote_vote_none db u p o hv] at h; simp at h
  | some v =>
    cases ho : findOptionInPoll db o p with
    | none => rw [updateVote_bad_option db u p o v hv ho] at h; simp at h
    | some opt => exact ⟨v, opt, rfl, rfl, updateVote_updated db u p o v opt hv ho⟩

theorem removeVote_vote_none (db : DB) (u o : Nat) (hv : findVote db u o = none) :
    removeVote db u o = ⟨db, ⟨404, "No vote found to remove"⟩, []⟩ := by
  simp [removeVote, hv]

theorem removeVote_deleted (db : DB) (u o : Nat) (v : Vote)
    (hv : findVote db u o = some v) :
    (removeVote db u o).resp = ⟨200, "Vote removed successfully"⟩ ∧
    (removeVote db u o).db =
      ⟨db.polls, db.options,
       db.votes.filter (fun w => !(w.userId == u && w.pollOptionId == o))⟩ := by
  unfold removeVote
  rw [hv]
  cases ho : (findOption db o).map (fun opt => opt.pollId) with
  | none => exact ⟨rfl, rfl⟩
  | some pid => exact ⟨rfl, rfl⟩

theorem removeVote_deleted_opt (db : DB) (u o : Nat) (v : Vote) (opt : PollOption)
    (hv : findVote db u o = some v) (ho : findOption db o = some opt) :
    removeVote db u o =
      ⟨⟨db.polls, db.options,
        db.votes.filter (fun w => !(w.userId == u && w.pollOptionId == o))⟩,
       ⟨200, "Vote removed successfully"⟩,
       [Effect.voteDelete u o, Effect.broadcast opt.pollId]⟩ := by
  simp [removeVote, hv, ho]

theorem findVote_filter_out (db : DB) (u o : Nat) :
    (db.votes.filter (fun w => !(w.userId == u && w.pollOptionId == o))).find?
      (fun w => w.userId == u && w.pollOptionId == o) = none := by
  rw [List.find?_eq_none]
  intro w hw
  have h1 := List.of_mem_filter hw
  simp_all
  tauto

theorem sum_map_add {α : Type} (l : List α) (f g : α → Nat) :
    (l.map (fun a => f a + g a)).sum = (l.map f).sum + (l.map g).sum := by
  induction l with
  | nil => rfl
  | cons x xs ih =>
    simp only [List.map_cons, List.sum_cons, ih]
    omega

theorem sum_map_mul_left {α : Type} (l : List α) (a : Nat) (f : α → Nat) :
    (l.map (fun x => a * f x)).sum = a * (l.map f).sum := by
  induction l with
  | nil => simp
  | cons x xs ih =>
    simp only [List.map_cons, List.sum_cons, ih, Nat.mul_add]

theorem sum_map_const {α : Type} (l : List α) (c : Nat) :
    (l.map (fun _ => c)).sum = l.length * c := by
  induction l with
  | nil => simp
  | cons x xs ih =>
    simp only [List.map_cons, List.sum_cons, ih, List.length_cons]
    ring

theorem sum_map_affine (l : List Nat) (t : Nat) :
    (l.map (fun c => 200 * c + t)).sum = 200 * l.sum + l.length * t := by
  induction l with
  | nil => simp
  | cons x xs ih =>
    simp only [List.map_cons, List.sum_cons, ih, List.length_cons]
    ring

theorem div_add_div_le (a b d : Nat) : a / d + b / d ≤ (a + b) / d := by
  rcases Nat.eq_zero_or_pos d with h | h
  · simp [h]
  · rw [Nat.le_div_iff_mul_le h, Nat.add_mul]
    exact Nat.add_le_add (Nat.div_mul_le_self a d) (Nat.div_mul_le_self b d)

theorem sum_map_div_le {α : Type} (l : List α) (f : α → Nat) (d : Nat) :
    (l.map (fun a => f a / d)).sum ≤ (l.map f).sum / d := by
  induction l with
  | nil => simp
  | cons x xs ih =>
    simp only [List.map_cons, List.sum_cons]
    calc f x / d + (xs.map (fun a => f a / d)).sum
        ≤ f x / d + (xs.map f).sum / d := Nat.add_le_add_left ih _
      _ ≤ (f x + (xs.map f).sum) / d := div_add_div_le _ _ _

theorem sum_map_indicator {α : Type} (l : List α) (p : α → Bool) :
    (l.map (fun a => if p a then 1 else 0)).sum = l.countP p := by
  induction l with
  | nil => rfl
  | cons x xs ih =>
    by_cases h : p x <;> simp [List.countP_cons, h, ih] <;> omega

theorem countP_id_le_one (l : List PollOption) (x : Nat)
    (hnd : (l.map (fun o => o.id)).Nodup) :
    l.countP (fun o => x == o.id) ≤ 1 := by
  induction l with
  | nil => simp
  | cons o os ih =>
    rw [List.map_cons, List.nodup_cons] at hnd
    by_cases h : (x == o.id) = true
    · have hx : x = o.id := by simpa using h
      have h0 : os.countP (fun o2 => x == o2.id) = 0 := by
        rw [List.countP_eq_zero]
        intro o2 ho2
        simp only [beq_iff_eq]
        intro hcontra
        exact hnd.1 (by rw [← hx, hcontra]; exact List.mem_map_of_mem _ ho2)
      rw [List.countP_cons, h0]
      simp [h]
    · rw [List.countP_cons]
      simp only [h, if_false]
      exact ih hnd.2

theorem filter_cons_length {α : Type} (v : α) (vs : List α) (p : α → Bool) :
    ((v :: vs).filter p).length = (if p v then 1 else 0) + (vs.filter p).length := by
  by_cases h : p v <;> simp [List.filter_cons, h] <;> omega

theorem sum_counts_le (opts : List PollOption) (votes : List Vote) (P : Nat)
    (hnd : (opts.map (fun o => o.id)).Nodup)
    (hP : ∀ o ∈ opts, o.pollId = P)
    (hint : ∀ v ∈ votes, ∀ o ∈ opts, v.pollOptionId = o.id → v.pollId = o.pollId) :
    (opts.map (fun o => (votes.filter (fun v => v.pollOptionId == o.id)).length)).sum ≤
      (votes.filter (fun v => v.pollId == P)).length := by
  induction votes with
  | nil => simp
  | cons v vs ih =>
    rw [List.map_congr_left
      (fun o _ => filter_cons_length v vs (fun w => w.pollOptionId == o.id))]
    rw [sum_map_add, sum_map_indicator, filter_cons_length]
    have hIH := ih (fun w hw o ho hid => hint w (List.mem_cons_of_mem _ hw) o ho hid)
    have hind : opts.countP (fun o => v.pollOptionId == o.id) ≤
        (if v.pollId == P then 1 else 0) := by
      rcases Nat.eq_zero_or_pos (opts.countP (fun o => v.pollOptionId == o.id)) with h0 | hpos
      · rw [h0]; exact Nat.zero_le _
      · have hex : ∃ o ∈ opts, (v.pollOptionId == o.id) = true := by
          by_contra hc
          push_neg at hc
          have : opts.countP (fun o => v.pollOptionId == o.id) = 0 :=
            List.countP_eq_zero.mpr (fun o ho => by simp [hc o ho])
          omega
        obtain ⟨o, ho, hbeq⟩ := hex
        have hvP : v.pollId = P := by
          rw [hint v (List.mem_cons_self v vs) o ho (by simpa using hbeq)]
          exact hP o ho
        rw [if_pos (by simpa using hvP)]
        exact countP_id_le_one opts _ hnd
    omega

theorem optionVoteCount_le (db : DB) (pollId : Nat) (o : PollOption)
    (ho : o ∈ db.options) (hoP : o.pollId = pollId)
    (hint : ∀ v ∈ db.votes, ∀ o2 ∈ db.options, v.pollOptionId = o2.id → v.pollId = o2.pollId) :
    optionVoteCount db o.id ≤ pollVoteCount db pollId := by
  unfold optionVoteCount pollVoteCount
  rw [← List.countP_eq_length_filter, ← List.countP_eq_length_filter]
  apply List.countP_mono_left
  intro v hv hbeq
  have hvid : v.pollOptionId = o.id := by simpa using hbeq
  have := hint v hv o ho hvid
  simp [this, hoP]

theorem percentage_le_100 (c t : Nat) (h : c ≤ t) : percentage c t ≤ 100 := by
  unfold percentage jsRound
  by_cases ht : t > 0
  · rw [if_pos ht]
    calc (2 * (c * 100) + t) / (2 * t)
        ≤ (201 * t) / (2 * t) := by
          apply Nat.div_le_div_right
          have : c * 100 ≤ t * 100 := Nat.mul_le_mul_right 100 h
          omega
      _ = 201 / 2 := Nat.mul_div_mul_right 201 2 ht
      _ = 100 := by norm_num
  · rw [if_neg ht]
    exact Nat.zero_le _

theorem sum_percentages_le (counts : List Nat) (t : Nat) (hsum : counts.sum ≤ t) :
    (counts.map (fun c => percentage c t)).sum ≤ 100 + counts.length / 2 := by
  by_cases ht : t > 0
  · unfold percentage jsRound
    simp only [if_pos ht]
    calc (counts.map (fun c => (2 * (c * 100) + t) / (2 * t))).sum
        ≤ (counts.map (fun c => 2 * (c * 100) + t)).sum / (2 * t) :=
          sum_map_div_le counts (fun c => 2 * (c * 100) + t) (2 * t)
      _ ≤ ((200 + counts.length) * t) / (2 * t) := by
          apply Nat.div_le_div_right
          have hcongr : counts.map (fun c => 2 * (c * 100) + t) =
              counts.map (fun c => 200 * c + t) :=
            List.map_congr_left (fun c _ => by ring)
          rw [hcongr, sum_map_affine]
          nlinarith
      _ = (200 + counts.length) / 2 := Nat.mul_div_mul_right _ 2 ht
      _ = 100 + counts.length / 2 := by omega
  · have h0 : counts.map (fun c => percentage c t) = counts.map (fun _ => 0) :=
      List.map_congr_left (fun c _ => by unfold percentage; rw [if_neg ht])
    rw [h0, sum_map_const]
    omega

theorem uniqueVotes_append (vs : List Vote) (u p o : Nat) (hw : UniqueVotes vs)
    (hnone : ∀ w ∈ vs, ¬(w.userId = u ∧ w.pollOptionId = o)) :
    UniqueVotes (vs ++ [⟨u, p, o⟩]) := by
  unfold UniqueVotes at *
  rw [List.pairwise_append]
  refine ⟨hw, List.pairwise_singleton _ _, ?_⟩
  intro a ha b hb
  simp only [List.mem_singleton] at hb
  subst hb
  simpa using hnone a ha

theorem findVote_some_prop (db : DB) (u o : Nat) (v : Vote)
    (h : findVote db u o = some v) : v.userId = u ∧ v.pollOptionId = o := by
  unfold findVote at h
  have h1 := List.find?_some h
  simpa using h1

theorem findVote_none_prop (db : DB) (u o : Nat) (h : findVote db u o = none) :
    ∀ w ∈ db.votes, ¬(w.userId = u ∧ w.pollOptionId = o) := by
  rw [findVote, List.find?_eq_none] at h
  intro w hw hcon
  exact absurd (by simp [hcon.1, hcon.2] :
    (w.userId == u && w.pollOptionId == o) = true) (h w hw)

theorem addVote_preserves_unique (db : DB) (u p o : Nat) (hw : UniqueVotes db.votes) :
    UniqueVotes (addVote db u p o).db.votes := by
  cases hp : findPoll db p with
  | none => rw [addVote_poll_none db u p o hp]; exact hw
  | some poll =>
    cases hpub : poll.isPublished with
    | false => rw [addVote_unpublished db u p o poll hp hpub]; exact hw
    | true =>
      cases ho : findOptionInPoll db o p with
      | none => rw [addVote_bad_option db u p o poll hp hpub ho]; exact hw
      | some opt =>
        cases hv : findVote db u o with
        | some v => rw [addVote_duplicate db u p o poll opt v hp hpub ho hv]; exact hw
        | none =>
          rw [addVote_created db u p o poll opt hp hpub ho hv]
          exact uniqueVotes_append db.votes u p o hw (findVote_none_prop db u o hv)

theorem removeVote_preserves_unique (db : DB) (u o : Nat) (hw : UniqueVotes db.votes) :
    UniqueVotes (removeVote db u o).db.votes := by
  cases hv : findVote db u o with
  | none => rw [removeVote_vote_none db u o hv]; exact hw
  | some v =>
    rw [(removeVote_deleted db u o v hv).2]
    exact hw.sublist (List.filter_sublist db.votes)

theorem second_cast_conflict (db : DB) (u p o : Nat)
    (h : (addVote db u p o).resp.status = 201) :
    addVote (addVote db u p o).db u p o =
      ⟨(addVote db u p o).db, ⟨400, "You have already voted for this option"⟩, []⟩ := by
  obtain ⟨poll, opt, hp, hpub, ho, hv, heq⟩ := addVote_201_inv db u p o h
  rw [heq]
  have hp' : findPoll ⟨db.polls, db.options, db.votes ++ [⟨u, p, o⟩]⟩ p = some poll := hp
  have ho' : findOptionInPoll ⟨db.polls, db.options, db.votes ++ [⟨u, p, o⟩]⟩ o p = some opt := ho
  have hfv : findVote ⟨db.polls, db.options, db.votes ++ [⟨u, p, o⟩]⟩ u o = some ⟨u, p, o⟩ := by
    show (db.votes ++ [(⟨u, p, o⟩ : Vote)]).find?
      (fun w => w.userId == u && w.pollOptionId == o) = some (⟨u, p, o⟩ : Vote)
    have hv' : db.votes.find? (fun w => w.userId == u && w.pollOptionId == o) = none := hv
    rw [find?_append_of_none hv']
    simp
  exact addVote_duplicate ⟨db.polls, db.options, db.votes ++ [⟨u, p, o⟩]⟩ u p o poll opt
    ⟨u, p, o⟩ hp' hpub ho' hfv

/-- C1: for every user and poll option, at most one Vote row exists for the
pair at any time — each vote mutation preserves the `(userId, pollOptionId)`
uniqueness invariant — and a second cast for the same option after a
successful first cast fails with the duplicate-vote Conflict response
(400, "You have already voted for this option") instead of creating or
upserting a row (the store is returned unchanged). -/
theorem C1_at_most_one_vote_per_pair (db : DB) (u p o : Nat)
    (hw : UniqueVotes db.votes) :
    UniqueVotes (addVote db u p o).db.votes ∧
    UniqueVotes (updateVote db u p o).db.votes ∧
    UniqueVotes (removeVote db u o).db.votes ∧
    ((addVote db u p o).resp.status = 201 →
      addVote (addVote db u p o).db u p o =
        ⟨(addVote db u p o).db, ⟨400, "You have already voted for this option"⟩, []⟩) := by
  refine ⟨addVote_preserves_unique db u p o hw, ?_, removeVote_preserves_unique db u o hw,
    second_cast_conflict db u p o⟩
  rw [updateVote_db_eq]
  exact hw

/-- Witness for C1 at a concrete store: user 20 casts for option 2 of
poll 1; the uniqueness invariant holds afterwards and an immediate second
identical cast is rejected as a duplicate without touching the store. -/
theorem C1_witness :
    UniqueVotes (addVote witnessDB 20 1 2).db.votes ∧
    addVote (addVote witnessDB 20 1 2).db 20 1 2 =
      ⟨(addVote witnessDB 20 1 2).db, ⟨400, "You have already voted for this option"⟩, []⟩ := by
  have h := C1_at_most_one_vote_per_pair witnessDB 20 1 2 (List.pairwise_singleton _ _)
  exact ⟨h.1, h.2.2.2 (by decide)⟩

/-- C10: `change` (`updateVote`) is the identity on the vote's option
reference: whenever the call succeeds, the store is completely unchanged,
the row it found via the *target* option already had `pollOptionId` equal to
that target, and the row is unchanged after the call — no vote can ever be
moved between options through this operation. -/
theorem C10_change_is_identity_on_option (db : DB) (u p o : Nat)
    (h : (updateVote db u p o).resp.status = 200) :
    (updateVote db u p o).db = db ∧
    ∃ v, findVote db u o = some v ∧ v.pollOptionId = o ∧
      findVote (updateVote db u p o).db u o = some v := by
  obtain ⟨v, opt, hv, ho, hresp, heff⟩ := updateVote_200_inv db u p o h
  refine ⟨updateVote_db_eq db u p o, v, hv, ?_, ?_⟩
  · exact (findVote_some_prop db u o v hv).2
  · rw [updateVote_db_eq]
    exact hv

/-- Witness for C10: user 10 "changes" their vote to option 1 (the option
they already voted for — the only way `updateVote` can succeed); the store
is unchanged and the row still references option 1. -/
theorem C10_witness :
    (updateVote witnessDB 10 1 1).db = witnessDB ∧
    ∃ v, findVote witnessDB 10 1 = some v ∧ v.pollOptionId = 1 ∧
      findVote (updateVote witnessDB 10 1 1).db 10 1 = some v :=
  C10_change_is_identity_on_option witnessDB 10 1 1 (by decide)

/-- C7: `retract` (`removeVote`) fails with NotFound (404) when no Vote
exists for `(userId, pollOptionId)`, leaving the store unchanged; retracting
an existing vote succeeds (200) and deletes the row, and a second retract of
the same vote then fails with NotFound again (idempotent failure, not silent
success), again leaving the store unchanged. -/
theorem C7_retract_notfound_and_idempotent_failure (db : DB) (u o : Nat) :
    (findVote db u o = none →
      removeVote db u o = ⟨db, ⟨404, "No vote found to remove"⟩, []⟩) ∧
    (∀ v, findVote db u o = some v →
      (removeVote db u o).resp = ⟨200, "Vote removed successfully"⟩ ∧
      (removeVote db u o).db =
        ⟨db.polls, db.options,
         db.votes.filter (fun w => !(w.userId == u && w.pollOptionId == o))⟩ ∧
      findVote (removeVote db u o).db u o = none ∧
      removeVote (removeVote db u o).db u o =
        ⟨(removeVote db u o).db, ⟨404, "No vote found to remove"⟩, []⟩) := by
  constructor
  · exact removeVote_vote_none db u o
  · intro v hv
    obtain ⟨hresp, hdb⟩ := removeVote_deleted db u o v hv
    have hnone : findVote (removeVote db u o).db u o = none := by
      rw [hdb]
      exact findVote_filter_out db u o
    exact ⟨hresp, hdb, hnone, removeVote_vote_none _ u o hnone⟩

/-- Witness for C7: retracting a vote user 99 never cast returns 404 with
the store unchanged; user 10's existing vote is deleted with 200 and a
second retract returns 404. -/
theorem C7_witness :
    removeVote witnessDB 99 1 = ⟨witnessDB, ⟨404, "No vote found to remove"⟩, []⟩ ∧
    (removeVote witnessDB 10 1).resp = ⟨200, "Vote removed successfully"⟩ ∧
    removeVote (removeVote witnessDB 10 1).db 10 1 =
      ⟨(removeVote witnessDB 10 1).db, ⟨404, "No vote found to remove"⟩, []⟩ := by
  have h1 := (C7_retract_notfound_and_idempotent_failure witnessDB 99 1).1 (by decide)
  have h2 := (C7_retract_notfound_and_idempotent_failure witnessDB 10 1).2 ⟨10, 1, 1⟩ (by decide)
  exact ⟨h1, h2.1, h2.2.2.2⟩

theorem addVote_effects_shape (db : DB) (u p o : Nat) :
    (addVote db u p o).effects = [] ∨
    (addVote db u p o).effects = [Effect.voteCreate ⟨u, p, o⟩, Effect.broadcast p] := by
  cases hp : findPoll db p with
  | none => left; rw [addVote_poll_none db u p o hp]
  | some poll =>
    cases hpub : poll.isPublished with
    | false => left; rw [addVote_unpublished db u p o poll hp hpub]
    | true =>
      cases ho : findOptionInPoll db o p with
      | none => left; rw [addVote_bad_option db u p o poll hp hpub ho]
      | some opt =>
        cases hv : findVote db u o with
        | some v => left; rw [addVote_duplicate db u p o poll opt v hp hpub ho hv]
        | none => right; rw [addVote_created db u p o poll opt hp hpub ho hv]

theorem updateVote_effects_shape (db : DB) (u p o : Nat) :
    (updateVote db u p o).effects = [] ∨
    (updateVote db u p o).effects = [Effect.voteUpdate u o, Effect.broadcast p] := by
  cases hv : findVote db u o with
  | none => left; rw [updateVote_vote_none db u p o hv]
  | some v =>
    cases ho : findOptionInPoll db o p with
    | none => left; rw [updateVote_bad_option db u p o v hv ho]
    | some opt => right; exact (updateVote_updated db u p o v opt hv ho).2

theorem removeVote_effects_shape (db : DB) (u o : Nat) :
    (removeVote db u o).effects = [] ∨
    (removeVote db u o).effects = [Effect.voteDelete u o] ∨
    ∃ pid, (removeVote db u o).effects = [Effect.voteDelete u o, Effect.broadcast pid] := by
  unfold removeVote
  cases hv : findVote db u o with
  | none => left; rfl
  | some v =>
    cases ho : (findOption db o).map (fun opt => opt.pollId) with
    | none => right; left; rfl
    | some pid => right; right; exact ⟨pid, rfl⟩

/-- C6: every successful cast, change or retract triggers the broadcast
dispatcher for the affected poll (for retract, the poll of the retracted
option, provided the option row exists — the store's foreign-key constraint
guarantees it does), and in every execution of every handler the broadcast
call is placed after the store write in the awaited effect order — a
broadcast is never emitted before the write has committed. -/
theorem C6_broadcast_follows_committed_write (db : DB) (u p o : Nat) :
    ((addVote db u p o).resp.status = 201 →
      Effect.broadcast p ∈ (addVote db u p o).effects) ∧
    ((updateVote db u p o).resp.status = 200 →
      Effect.broadcast p ∈ (updateVote db u p o).effects) ∧
    (∀ v opt, findVote db u o = some v → findOption db o = some opt →
      (removeVote db u o).resp.status = 200 ∧
      Effect.broadcast opt.pollId ∈ (removeVote db u o).effects) ∧
    broadcastsPreceded false (addVote db u p o).effects = true ∧
    broadcastsPreceded false (updateVote db u p o).effects = true ∧
    broadcastsPreceded false (removeVote db u o).effects = true := by
  refine ⟨?_, ?_, ?_, ?_, ?_, ?_⟩
  · intro h
    obtain ⟨poll, opt, _, _, _, _, heq⟩ := addVote_201_inv db u p o h
    rw [heq]
    simp
  · intro h
    obtain ⟨v, opt, hv, ho, hresp, heff⟩ := updateVote_200_inv db u p o h
    rw [heff]
    simp
  · intro v opt hv ho
    rw [removeVote_deleted_opt db u o v opt hv ho]
    exact ⟨rfl, by simp⟩
  · rcases addVote_effects_shape db u p o with h | h <;> rw [h] <;> rfl
  · rcases updateVote_effects_shape db u p o with h | h <;> rw [h] <;> rfl
  · rcases removeVote_effects_shape db u o with h | h | ⟨pid, h⟩ <;> rw [h] <;> rfl

/-- Witness for C6: a successful cast by user 20, a successful change and a
successful retract by user 10 all carry a broadcast for poll 1 after their
write. -/
theorem C6_witness :
    Effect.broadcast 1 ∈ (addVote witnessDB 20 1 2).effects ∧
    Effect.broadcast 1 ∈ (updateVote witnessDB 10 1 1).effects ∧
    (removeVote witnessDB 10 1).resp.status = 200 ∧
    Effect.broadcast 1 ∈ (removeVote witnessDB 10 1).effects := by
  have h1 := C6_broadcast_follows_committed_write witnessDB 20 1 2
  have h2 := C6_broadcast_follows_committed_write witnessDB 10 1 1
  have h3 := h2.2.2.1 ⟨10, 1, 1⟩ ⟨1, 1, "A"⟩ (by decide) (by decide)
  exact ⟨h1.1 (by decide), h2.2.1 (by decide), h3.1, h3.2⟩

/-- C2: evaluation of the §8 scenario against the code. Steps 1 and 2
behave as claimed: U1's cast for A yields tally {A:1 (100%), B:0 (0%),
total:1} and U2's cast for B yields {A:1 (50%), B:1 (50%), total:2}. Step 3
diverges: U1's `change` to B looks the vote up by the *target* option
`(U1, B)`, finds none (U1 voted for A), and fails 404 "No vote found to
update", leaving the store — and hence the tally — unchanged at
{A:1 (50%), B:1 (50%), total:2} instead of the claimed
{A:0 (0%), B:2 (100%), total:2}. -/
theorem C2_scenario_change_returns_notfound :
    step1.resp.status = 201 ∧
    computeTally step1.db 1 =
      some ⟨1, "Q", 1, [⟨1, "A", 1, 100⟩, ⟨2, "B", 0, 0⟩]⟩ ∧
    step2.resp.status = 201 ∧
    computeTally step2.db 1 =
      some ⟨1, "Q", 2, [⟨1, "A", 1, 50⟩, ⟨2, "B", 1, 50⟩]⟩ ∧
    step3.resp = ⟨404, "No vote found to update"⟩ ∧
    step3.db = step2.db ∧
    computeTally step3.db 1 =
      some ⟨1, "Q", 2, [⟨1, "A", 1, 50⟩, ⟨2, "B", 1, 50⟩]⟩ := by
  decide

/-- C3 counterexample: on a store whose poll 1 is unpublished but where
user 10 already holds a vote for option 1 of that poll, `change`
(`updateVote`) succeeds with 200 and runs the vote update and the
broadcast — refuting "both cast and change fail when the poll is
unpublished". -/
theorem C3_counterexample :
    findPoll unpublishedDB 1 = some ⟨1, "Q", false⟩ ∧
    (updateVote unpublishedDB 10 1 1).resp = ⟨200, "Vote updated successfully"⟩ ∧
    (updateVote unpublishedDB 10 1 1).effects =
      [Effect.voteUpdate 10 1, Effect.broadcast 1] := by
  decide

/-- C3 (amended): a Vote is created via cast only when the target poll has
`isPublished = true`, and a cast on an unpublished poll always fails
Conflict/403 regardless of option validity; `change` (`updateVote`),
however, performs no publish check at all — its response and effects are
independent of the Poll table — so an existing vote row can be updated
while its poll is unpublished. -/
theorem C3_amended_publish_check_only_on_cast (db : DB) (u p o : Nat) :
    (∀ poll, findPoll db p = some poll → poll.isPublished = false →
      addVote db u p o = ⟨db, ⟨403, "Cannot vote on unpublished poll"⟩, []⟩) ∧
    ((addVote db u p o).resp.status = 201 →
      ∃ poll, findPoll db p = some poll ∧ poll.isPublished = true) ∧
    (∀ ps : List Poll,
      (updateVote ⟨ps, db.options, db.votes⟩ u p o).resp = (updateVote db u p o).resp ∧
      (updateVote ⟨ps, db.options, db.votes⟩ u p o).effects =
        (updateVote db u p o).effects) := by
  refine ⟨?_, ?_, ?_⟩
  · intro poll hp hpub
    exact addVote_unpublished db u p o poll hp hpub
  · intro h
    obtain ⟨poll, opt, hp, hpub, _, _, _⟩ := addVote_201_inv db u p o h
    exact ⟨poll, hp, hpub⟩
  · intro ps
    cases hv : findVote db u o with
    | none =>
      have hv' : findVote ⟨ps, db.options, db.votes⟩ u o = none := hv
      rw [updateVote_vote_none db u p o hv, updateVote_vote_none _ u p o hv']
      exact ⟨rfl, rfl⟩
    | some v =>
      have hv' : findVote ⟨ps, db.options, db.votes⟩ u o = some v := hv
      cases ho : findOptionInPoll db o p with
      | none =>
        have ho' : findOptionInPoll ⟨ps, db.options, db.votes⟩ o p = none := ho
        rw [updateVote_bad_option db u p o v hv ho,
          updateVote_bad_option _ u p o v hv' ho']
        exact ⟨rfl, rfl⟩
      | some opt =>
        have ho' : findOptionInPoll ⟨ps, db.options, db.votes⟩ o p = some opt := ho
        obtain ⟨h1, h2⟩ := updateVote_updated db u p o v opt hv ho
        obtain ⟨h1', h2'⟩ := updateVote_updated _ u p o v opt hv' ho'
        rw [h1, h2, h1', h2']
        exact ⟨rfl, rfl⟩

/-- Witness for the amended C3: a cast on the unpublished poll fails 403
with the store untouched, and `updateVote`'s response is unchanged when the
whole Poll table is replaced by the empty table. -/
theorem C3_witness :
    addVote unpublishedDB 20 1 2 =
      ⟨unpublishedDB, ⟨403, "Cannot vote on unpublished poll"⟩, []⟩ ∧
    (updateVote ⟨[], unpublishedDB.options, unpublishedDB.votes⟩ 10 1 1).resp =
      (updateVote unpublishedDB 10 1 1).resp := by
  have h := C3_amended_publish_check_only_on_cast unpublishedDB 20 1 2
  have h2 := C3_amended_publish_check_only_on_cast unpublishedDB 10 1 1
  exact ⟨h.1 ⟨1, "Q", false⟩ (by decide) rfl, (h2.2.2 []).1⟩

/-- C4 counterexample: poll 1 exists and is published but option 5 does not
exist anywhere in the store; `cast` (`addVote`) then fails with the 400
"Invalid poll option for this poll" Conflict response — the same response
as an option belonging to a different poll — not with NotFound/404 as the
claim requires for a nonexistent option. -/
theorem C4_counterexample :
    findPoll noOptionDB 1 = some ⟨1, "Q", true⟩ ∧
    findOption noOptionDB 5 = none ∧
    (addVote noOptionDB 10 1 5).resp = ⟨400, "Invalid poll option for this poll"⟩ ∧
    ¬(addVote noOptionDB 10 1 5).resp.status = 404 := by
  decide

/-- C4 (amended): `cast` fails NotFound/404 exactly when the poll does not
exist; when the poll exists but is unpublished it fails Conflict/403; when
the option does not exist *or* does not belong to the poll it fails
Conflict/400 "Invalid poll option for this poll" (a nonexistent option is
reported as Conflict, not NotFound); when a Vote already exists for
`(userId, pollOptionId)` it fails Conflict/400 duplicate-vote; otherwise it
succeeds with 201 and appends the created Vote. The checks apply in exactly
this order, and every failure leaves the store unchanged. -/
theorem C4_amended_cast_error_cases (db : DB) (u p o : Nat) :
    (findPoll db p = none →
      addVote db u p o = ⟨db, ⟨404, "Poll not found"⟩, []⟩) ∧
    (∀ poll, findPoll db p = some poll → poll.isPublished = false →
      addVote db u p o = ⟨db, ⟨403, "Cannot vote on unpublished poll"⟩, []⟩) ∧
    (∀ poll, findPoll db p = some poll → poll.isPublished = true →
      findOptionInPoll db o p = none →
      addVote db u p o = ⟨db, ⟨400, "Invalid poll option for this poll"⟩, []⟩) ∧
    (∀ poll opt v, findPoll db p = some poll → poll.isPublished = true →
      findOptionInPoll db o p = some opt → findVote db u o = some v →
      addVote db u p o = ⟨db, ⟨400, "You have already voted for this option"⟩, []⟩) ∧
    (∀ poll opt, findPoll db p = some poll → poll.isPublished = true →
      findOptionInPoll db o p = some opt → findVote db u o = none →
      addVote db u p o =
        ⟨⟨db.polls, db.options, db.votes ++ [⟨u, p, o⟩]⟩,
         ⟨201, "Vote added successfully"⟩,
         [Effect.voteCreate ⟨u, p, o⟩, Effect.broadcast p]⟩) :=
  ⟨addVote_poll_none db u p o,
   fun poll => addVote_unpublished db u p o poll,
   fun poll => addVote_bad_option db u p o poll,
   fun poll opt v => addVote_duplicate db u p o poll opt v,
   fun poll opt => addVote_created db u p o poll opt⟩

/-- Witness for the amended C4: on the store with no options, casting for
option 5 of existing poll 1 yields the 400 invalid-option Conflict, and
casting on absent poll 2 yields 404. -/
theorem C4_witness :
    addVote noOptionDB 10 1 5 =
      ⟨noOptionDB, ⟨400, "Invalid poll option for this poll"⟩, []⟩ ∧
    addVote noOptionDB 10 2 5 = ⟨noOptionDB, ⟨404, "Poll not found"⟩, []⟩ := by
  have h := C4_amended_cast_error_cases noOptionDB 10 1 5
  have h2 := C4_amended_cast_error_cases noOptionDB 10 2 5
  exact ⟨h.2.2.1 ⟨1, "Q", true⟩ (by decide) rfl (by decide), h2.1 (by decide)⟩

/-- C5 counterexample: with 8 votes split 1 : 7 over the two options of
poll 1, the exact shares are 12.5% and 87.5%; `Math.round` (half-up) turns
them into 13 and 88, which sum to 101 — refuting "the percentages across
all options always sum to at most 100". -/
theorem C5_counterexample :
    computeTally eighthsDB 1 =
      some ⟨1, "Q", 8, [⟨1, "A", 1, 13⟩, ⟨2, "B", 7, 88⟩]⟩ ∧
    percentage 1 8 = 13 ∧ percentage 7 8 = 88 ∧ ¬(13 + 88 ≤ 100) := by
  decide

/-- C5 (amended): for every poll of a store satisfying the schema's
constraints (distinct option ids; every vote's denormalized `pollId` agrees
with its option's `pollId`), `computeTally` reports each option's
percentage as round-half-up of `voteCount / totalVotes × 100` — 0 for every
option when `totalVotes = 0` — and each individual percentage lies in
[0, 100]; the percentages across all options sum to at most
`100 + ⌊(number of options) / 2⌋` (round-half-up can add up to half a
point per option, so the sum can exceed 100, but by no more than that). -/
theorem C5_amended_percentage_bounds (db : DB) (pollId : Nat) (t : Tally)
    (hnd : (db.options.map (fun o => o.id)).Nodup)
    (hint : ∀ v ∈ db.votes, ∀ o2 ∈ db.options, v.pollOptionId = o2.id → v.pollId = o2.pollId)
    (ht : computeTally db pollId = some t) :
    (∀ s ∈ t.options, s.pct = percentage s.voteCount t.totalVotes ∧ s.pct ≤ 100) ∧
    (t.totalVotes = 0 → ∀ s ∈ t.options, s.pct = 0) ∧
    (t.options.map (fun s => s.pct)).sum ≤ 100 + t.options.length / 2 := by
  rw [computeTally, Option.map_eq_some'] at ht
  obtain ⟨poll, hpoll, hteq⟩ := ht
  subst hteq
  have hcnt : ∀ o ∈ optionsOf db pollId,
      optionVoteCount db o.id ≤ pollVoteCount db pollId := by
    intro o ho
    have hmem := (List.mem_filter.mp ho).1
    have hoP : o.pollId = pollId := by
      have h2 := (List.mem_filter.mp ho).2
      simpa using h2
    exact optionVoteCount_le db pollId o hmem hoP hint
  refine ⟨?_, ?_, ?_⟩
  · intro s hs
    simp only [List.mem_map] at hs
    obtain ⟨o, ho, hso⟩ := hs
    subst hso
    exact ⟨rfl, percentage_le_100 _ _ (hcnt o ho)⟩
  · intro htot s hs
    simp only [List.mem_map] at hs
    obtain ⟨o, ho, hso⟩ := hs
    subst hso
    show percentage (optionVoteCount db o.id) (pollVoteCount db pollId) = 0
    have h0 : pollVoteCount db pollId = 0 := htot
    rw [h0]
    rfl
  · simp only [List.map_map, List.length_map]
    have hsum : ((optionsOf db pollId).map (fun o => optionVoteCount db o.id)).sum ≤
        pollVoteCount db pollId := by
      apply sum_counts_le (optionsOf db pollId) db.votes pollId
      · have hsub : List.Sublist ((optionsOf db pollId).map (fun o => o.id))
            (db.options.map (fun o => o.id)) :=
          List.Sublist.map _ (List.filter_sublist db.options)
        exact hnd.sublist hsub
      · intro o ho
        have h2 := (List.mem_filter.mp ho).2
        simpa using h2
      · intro v hv o ho hid
        exact hint v hv o (List.mem_filter.mp ho).1 hid
    have hfin := sum_percentages_le
      ((optionsOf db pollId).map (fun o => optionVoteCount db o.id))
      (pollVoteCount db pollId) hsum
    rw [List.map_map, List.length_map] at hfin
    exact hfin

/-- Witness for the amended C5 at the 1 : 7 store: option A's percentage 13
is round-half-up of 1/8 and is within [0, 100], and the percentage sum 101
respects the amended bound 100 + ⌊2/2⌋. -/
theorem C5_witness :
    ((13 : Nat) = percentage 1 8 ∧ (13 : Nat) ≤ 100) ∧
    (([⟨1, "A", 1, 13⟩, ⟨2, "B", 7, 88⟩] : List OptionStat).map
      (fun s => s.pct)).sum ≤ 100 + 1 := by
  have h := C5_amended_percentage_bounds eighthsDB 1
    ⟨1, "Q", 8, [⟨1, "A", 1, 13⟩, ⟨2, "B", 7, 88⟩]⟩ (by decide) (by decide) (by decide)
  exact ⟨h.1 ⟨1, "A", 1, 13⟩ (by decide), h.2.2⟩

/-- C8: `broadcastVoteUpdate` (`notifyVoteChange`) is fire-and-forget: it
never raises an error to its caller (so no broadcast failure can reach the
HTTP caller of the originating mutation, which has already committed), a
delivery failure at one connection does not prevent the attempt at any
other room member — every member's delivery is attempted whatever the
`deliver` outcomes are — and with zero room members the call is a no-op
that returns normally with no deliveries. -/
theorem C8_broadcast_fire_and_forget (db : DB) (rooms : Rooms) (pollId : Nat)
    (deliver : Nat → Bool) :
    (broadcastVoteUpdate db rooms pollId deliver).threw = false ∧
    (∀ t, computeTally db pollId = some t →
      (broadcastVoteUpdate db rooms pollId deliver).deliveries =
        emitToRoom (membersOf rooms pollId) deliver ∧
      ∀ c ∈ membersOf rooms pollId,
        (c, deliver c) ∈ (broadcastVoteUpdate db rooms pollId deliver).deliveries) ∧
    (membersOf rooms pollId = [] →
      (broadcastVoteUpdate db rooms pollId deliver).deliveries = []) := by
  refine ⟨?_, ?_, ?_⟩
  · unfold broadcastVoteUpdate
    cases computeTally db pollId with
    | none => rfl
    | some t => rfl
  · intro t ht
    unfold broadcastVoteUpdate
    rw [ht]
    refine ⟨rfl, ?_⟩
    intro c hc
    exact List.mem_map_of_mem _ hc
  · intro hm
    unfold broadcastVoteUpdate
    cases computeTally db pollId with
    | none => rfl
    | some t =>
      show emitToRoom (membersOf rooms pollId) deliver = []
      rw [hm]
      rfl

/-- Witness for C8: with members 7 and 9 in poll 1's room and delivery
succeeding only at connection 9, the call still attempts both deliveries,
reports no error, and an empty registry yields no deliveries. -/
theorem C8_witness :
    (broadcastVoteUpdate witnessDB [(1, [7, 9])] 1 (fun c => c == 9)).threw = false ∧
    (7, false) ∈ (broadcastVoteUpdate witnessDB [(1, [7, 9])] 1 (fun c => c == 9)).deliveries ∧
    (9, true) ∈ (broadcastVoteUpdate witnessDB [(1, [7, 9])] 1 (fun c => c == 9)).deliveries ∧
    (broadcastVoteUpdate witnessDB [] 1 (fun c => c == 9)).deliveries = [] := by
  have h := C8_broadcast_fire_and_forget witnessDB [(1, [7, 9])] 1 (fun c => c == 9)
  have h2 := C8_broadcast_fire_and_forget witnessDB [] 1 (fun c => c == 9)
  have hd := h.2.1 ⟨1, "Q", 1, [⟨1, "A", 1, 100⟩, ⟨2, "B", 0, 0⟩]⟩ (by decide)
  exact ⟨h.1, hd.2 7 (by decide), hd.2 9 (by decide), h2.2.2 rfl⟩

/-- C9: the connection gatekeeper (the `io.use` middleware) extracts a
token from the handshake's dedicated `auth.token` field or from a
Bearer-style `authorization` header, and — before any room operations, as
only an established connection carries the join/leave handlers — rejects
the connection with an authentication error exactly when no token is
present, the token fails verification (invalid/expired), or the decoded
user no longer exists; on success the resolved principal is attached to the
connection's context (`socket.userId`, `socket.user`). -/
theorem C9_gatekeeper_rejects_exactly_bad_credentials (users : List User)
    (verify : String → Option Nat) (hs : Handshake) :
    ((extractToken hs = none ∨ extractToken hs = some "") →
      establishConnection users verify hs =
        Except.error "Authentication error: No token provided") ∧
    (∀ tok, extractToken hs = some tok → ¬tok = "" → verify tok = none →
      establishConnection users verify hs =
        Except.error "Authentication error: Invalid token") ∧
    (∀ tok uid, extractToken hs = some tok → ¬tok = "" → verify tok = some uid →
      findUser users uid = none →
      establishConnection users verify hs =
        Except.error "Authentication error: User not found") ∧
    (∀ tok uid u, extractToken hs = some tok → ¬tok = "" → verify tok = some uid →
      findUser users uid = some u →
      establishConnection users verify hs = Except.ok ⟨u.id, u⟩) := by
  refine ⟨?_, ?_, ?_, ?_⟩
  · rintro (h | h) <;> simp [establishConnection, socketAuth, h]
  · intro tok h hne hv
    simp [establishConnection, socketAuth, h, hne, hv]
  · intro tok uid h hne hv hu
    simp [establishConnection, socketAuth, h, hne, hv, hu]
  · intro tok uid u h hne hv hu
    simp [establishConnection, socketAuth, h, hne, hv, hu]

/-- Witness for C9: with the one-user table and the toy verifier, an empty
handshake is rejected for lack of a token, a bad `auth.token` is rejected
as invalid, and a `Bearer tok5` authorization header is accepted with user
5 attached as the connection's principal. -/
theorem C9_witness :
    establishConnection demoUsers demoVerify ⟨none, none⟩ =
      Except.error "Authentication error: No token provided" ∧
    establishConnection demoUsers demoVerify ⟨some "bad", none⟩ =
      Except.error "Authentication error: Invalid token" ∧
    establishConnection demoUsers demoVerify ⟨none, some "Bearer tok5"⟩ =
      Except.ok ⟨5, ⟨5, "Ada", "ada@example.com"⟩⟩ := by
  have h1 := C9_gatekeeper_rejects_exactly_bad_credentials demoUsers demoVerify ⟨none, none⟩
  have h2 := C9_gatekeeper_rejects_exactly_bad_credentials demoUsers demoVerify
    ⟨some "bad", none⟩
  have h3 := C9_gatekeeper_rejects_exactly_bad_credentials demoUsers demoVerify
    ⟨none, some "Bearer tok5"⟩
  refine ⟨h1.1 (Or.inl rfl), ?_, ?_⟩
  · exact h2.2.1 "bad" (by decide) (by decide) (by decide)
  · exact h3.2.2.2 "tok5" 5 ⟨5, "Ada", "ada@example.com"⟩ (by decide) (by decide)
      (by decide) (by decide)

end PlusePoll
